import Mathlib

set_option linter.unusedVariables false

/-
Verification of the mbox-parsing pipeline (parse_mbox.py): a shallow
embedding of Decoder, EmailDecoder, SubjectDecoder, GmailMboxMessage and
main, together with theorems settling the specification claims.
-/

namespace ParseMbox

/-- Python bytes objects are modelled as lists of natural numbers below 256. -/
abbrev Bytes := List Nat

/-- ASCII lower-casing of a character list, as Python str.lower acts on the
ASCII header tokens handled by this program. -/
def lowerList (l : List Char) : List Char := l.map Char.toLower

/-- ASCII lower-casing of a string. -/
def lowerStr (s : String) : String := String.mk (lowerList s.toList)

/-- The first list is a leading piece of the second. -/
def leadsWith : List Char → List Char → Bool
  | [], _ => true
  | _ :: _, [] => false
  | a :: as, b :: bs => a == b && leadsWith as bs

/-- The first list contains the second as a contiguous run (Python in on str). -/
def containsSub (hay needle : List Char) : Bool :=
  match hay with
  | [] => leadsWith needle []
  | _ :: t => leadsWith needle hay || containsSub t needle

/-- The whitespace set of Python str.strip. -/
def isPySpace (c : Char) : Bool :=
  c.toNat == 32 || c.toNat == 9 || c.toNat == 10 || c.toNat == 13 ||
  c.toNat == 11 || c.toNat == 12

/-- Python str.strip on a character list. -/
def pyStripL (l : List Char) : List Char :=
  ((l.dropWhile isPySpace).reverse.dropWhile isPySpace).reverse

/-- Python str.split on a single newline, keeping empty pieces. -/
def splitLines : List Char → List (List Char)
  | [] => [[]]
  | c :: rest =>
    if c = '\n' then [] :: splitLines rest
    else
      match splitLines rest with
      | [] => [[c]]
      | l :: ls => (c :: l) :: ls

/-- Value of a base64 alphabet byte (the binascii table; pad is handled
separately by the caller). -/
def b64Val (c : Nat) : Option Nat :=
  if 65 ≤ c ∧ c ≤ 90 then some (c - 65)
  else if 97 ≤ c ∧ c ≤ 122 then some (c - 97 + 26)
  else if 48 ≤ c ∧ c ≤ 57 then some (c - 48 + 52)
  else if c = 43 then some 62
  else if c = 47 then some 63
  else none

/-- First byte that the binascii base64 table accepts, scanning forward; the
pad byte itself counts as valid in this scan. -/
def b64FindValid : Bytes → Option Nat
  | [] => none
  | c :: rest =>
    if c ≤ 127 ∧ (c = 61 ∨ (b64Val c).isSome) then some c else b64FindValid rest

/-- Model of CPython 3.8 binascii.a2b_base64, as called by base64.b64decode:
bytes outside the alphabet are skipped, a pad in the second half of a quad
ends the data, and leftover bits at the end raise the Incorrect padding
error (modelled as none). State: remaining input, quad position, pending
bits value, pending bit count, output accumulator (reversed). -/
def a2bB64Go : Bytes → Nat → Nat → Nat → Bytes → Option Bytes
  | [], _, _, leftbits, out => if leftbits = 0 then some out.reverse else none
  | c :: rest, quad, leftchar, leftbits, out =>
    if 127 < c ∨ c = 13 ∨ c = 10 ∨ c = 32 then
      a2bB64Go rest quad leftchar leftbits out
    else if c = 61 then
      if quad < 2 ∨ (quad = 2 ∧ b64FindValid rest ≠ some 61) then
        a2bB64Go rest quad leftchar leftbits out
      else some out.reverse
    else
      match b64Val c with
      | none => a2bB64Go rest quad leftchar leftbits out
      | some v =>
        let lc := leftchar * 64 + v
        let lb := leftbits + 6
        if 8 ≤ lb then
          a2bB64Go rest ((quad + 1) % 4) (lc % 2 ^ (lb - 8)) (lb - 8)
            ((lc / 2 ^ (lb - 8)) % 256 :: out)
        else
          a2bB64Go rest ((quad + 1) % 4) lc lb out

/-- Model of base64.b64decode with its default arguments. -/
def pyB64Decode (bs : Bytes) : Option Bytes := a2bB64Go bs 0 0 0 []

/-- Hexadecimal digit test of binascii a2b_qp (upper case, lower case, digit). -/
def isHexDigit (c : Nat) : Bool :=
  (48 ≤ c && c ≤ 57) || (65 ≤ c && c ≤ 70) || (97 ≤ c && c ≤ 102)

/-- Hexadecimal digit value for a2b_qp. -/
def hexVal (c : Nat) : Nat :=
  if 48 ≤ c && c ≤ 57 then c - 48
  else if 65 ≤ c && c ≤ 70 then c - 65 + 10
  else c - 97 + 10

/-- Model of CPython binascii.a2b_qp with header false, the function behind
quopri.decodestring: an equals byte starts an escape (soft line break,
doubled equals, hex pair, or a literal equals when the escape is malformed);
every other byte is copied verbatim. The fuel is bounded below by the input
length, and every step consumes at least one input byte, so the recursion
never exhausts the fuel when started with the input length. -/
def a2bQpGo : Nat → Bytes → Bytes
  | 0, _ => []
  | _ + 1, [] => []
  | fuel + 1, c :: rest =>
    if c = 61 then
      match rest with
      | [] => []
      | d :: rest2 =>
        if d = 10 then a2bQpGo fuel rest2
        else if d = 13 then a2bQpGo fuel ((rest2.dropWhile (fun x => x ≠ 10)).drop 1)
        else if d = 61 then 61 :: a2bQpGo fuel rest2
        else
          match rest2 with
          | e :: rest3 =>
            if isHexDigit d && isHexDigit e then
              (hexVal d * 16 + hexVal e) :: a2bQpGo fuel rest3
            else 61 :: a2bQpGo fuel (d :: e :: rest3)
          | [] => 61 :: a2bQpGo fuel [d]
    else c :: a2bQpGo fuel rest

/-- Model of quopri.decodestring. -/
def pyQpDecode (bs : Bytes) : Bytes := a2bQpGo bs.length bs

/-- UTF-8 encoding of one character. -/
def utf8EncodeChar (c : Char) : Bytes :=
  let n := c.toNat
  if n < 128 then [n]
  else if n < 2048 then [192 + n / 64, 128 + n % 64]
  else if n < 65536 then [224 + n / 4096, 128 + n / 64 % 64, 128 + n % 64]
  else [240 + n / 262144, 128 + n / 4096 % 64, 128 + n / 64 % 64, 128 + n % 64]

/-- Model of str.encode with the utf-8 codec (total: Lean characters are
exactly the Unicode scalar values, which always encode). -/
def utf8Encode (s : String) : Bytes := (s.toList.map utf8EncodeChar).flatten

/-- UTF-8 continuation byte test. -/
def isCont (b : Nat) : Bool := 128 ≤ b && b < 192

/-- Strict UTF-8 decoding, as bytes.decode with the utf-8 codec: rejects
stray continuation bytes, overlong forms, surrogates and values above the
Unicode range. -/
def utf8DecodeGo : Bytes → Option (List Char)
  | [] => some []
  | b :: rest =>
    if b < 128 then (utf8DecodeGo rest).map (fun l => Char.ofNat b :: l)
    else if b < 194 then none
    else if b < 224 then
      match rest with
      | b2 :: r2 =>
        if isCont b2 then
          (utf8DecodeGo r2).map (fun l => Char.ofNat ((b - 192) * 64 + (b2 - 128)) :: l)
        else none
      | [] => none
    else if b < 240 then
      match rest with
      | b2 :: b3 :: r2 =>
        if isCont b2 && isCont b3 && (b != 224 || 160 ≤ b2) && (b != 237 || b2 < 160) then
          (utf8DecodeGo r2).map
            (fun l => Char.ofNat ((b - 224) * 4096 + (b2 - 128) * 64 + (b3 - 128)) :: l)
        else none
      | _ => none
    else if b < 245 then
      match rest with
      | b2 :: b3 :: b4 :: r2 =>
        if isCont b2 && isCont b3 && isCont b4 && (b != 240 || 144 ≤ b2) && (b != 244 || b2 < 144) then
          (utf8DecodeGo r2).map
            (fun l => Char.ofNat ((b - 240) * 262144 + (b2 - 128) * 4096 + (b3 - 128) * 64 + (b4 - 128)) :: l)
        else none
      | _ => none
    else none

/-- Model of bytes.decode with the utf-8 codec. -/
def utf8Decode (bs : Bytes) : Option String := (utf8DecodeGo bs).map String.mk

/-- Model of str.encode with the us-ascii codec. -/
def asciiEncode (s : String) : Option Bytes :=
  if s.toList.all (fun c => c.toNat < 128) then some (s.toList.map Char.toNat)
  else none

/-- Model of bytes.decode with the us-ascii codec. -/
def asciiDecode (bs : Bytes) : Option String :=
  if bs.all (fun b => b < 128) then some (String.mk (bs.map Char.ofNat)) else none

/-- Modelled from the spec: the iso-8859-2 and iso-2022-jp codecs live in the
Python standard library, not in this repository. The spec restricts the
pipeline to a closed CharacterSet whose transfer texts are ASCII, so these
two codecs are modelled on their common ASCII subset, on which both agree
with us-ascii; input outside that subset is outside the modelled domain and
maps to none. -/
def subsetEncode (s : String) : Option Bytes := asciiEncode s

/-- Modelled from the spec: ASCII-subset decoding for the iso-8859-2 and
iso-2022-jp codecs, see subsetEncode. -/
def subsetDecode (bs : Bytes) : Option String := asciiDecode bs

/-- The external codec collaborators used by Decoder: charset encode and
decode (Python str.encode and bytes.decode), base64.b64decode (which can
raise, hence Option) and quopri.decodestring (total). -/
structure PyCodecs where
  encode : String → String → Option Bytes
  decode : String → Bytes → Option String
  b64decode : Bytes → Option Bytes
  qpDecode : Bytes → Bytes

/-- Dispatch of str.encode over the charsets the program declares. -/
def stdEncode (charset : String) (s : String) : Option Bytes :=
  if charset = "utf-8" then some (utf8Encode s)
  else if charset = "us-ascii" then asciiEncode s
  else if charset = "iso-8859-2" then subsetEncode s
  else if charset = "iso-2022-jp" then subsetEncode s
  else none

/-- Dispatch of bytes.decode over the charsets the program declares. -/
def stdDecode (charset : String) (bs : Bytes) : Option String :=
  if charset = "utf-8" then utf8Decode bs
  else if charset = "us-ascii" then asciiDecode bs
  else if charset = "iso-8859-2" then subsetDecode bs
  else if charset = "iso-2022-jp" then subsetDecode bs
  else none

/-- The standard-library codec bundle. -/
def stdCodecs : PyCodecs := ⟨stdEncode, stdDecode, pyB64Decode, pyQpDecode⟩

/-- Exception classes that can escape Decoder.call: UnicodeEncodeError from
encoding the text, binascii.Error from base64, AttributeError from calling
decode on the None returned for an unmatched transfer method, and
UnicodeDecodeError from the final charset decode. -/
inductive PyErr where
  | encodeErr
  | transferErr
  | attrErr
  | decodeErr
deriving DecidableEq

/-- Model of Decoder._decode_with_transfer: exact, case-sensitive dispatch on
the transfer method string; an unmatched method falls off the end of the
if-elif chain and returns None, modelled as ok none. -/
def decodeWithTransfer (C : PyCodecs) (tm : String) (b : Bytes) :
    Except PyErr (Option Bytes) :=
  if tm = "base64" then
    match C.b64decode b with
    | some r => Except.ok (some r)
    | none => Except.error PyErr.transferErr
  else if tm = "quoted-printable" then Except.ok (some (C.qpDecode b))
  else Except.ok none

/-- Model of Decoder.call (with the byte re-encoding done in the
constructor): re-encode the text with the declared charset, reverse the
transfer method on the bytes, decode the result with the charset. -/
def decoderCall (C : PyCodecs) (msg charset tm : String) : Except PyErr String :=
  match C.encode charset msg with
  | none => Except.error PyErr.encodeErr
  | some bin =>
    match decodeWithTransfer C tm bin with
    | Except.error e => Except.error e
    | Except.ok none => Except.error PyErr.attrErr
    | Except.ok (some b2) =>
      match C.decode charset b2 with
      | none => Except.error PyErr.decodeErr
      | some t => Except.ok t

/-- Does the regex ..From: of EmailDecoder match at the head of the text?
The dot of the Python re module matches any character except a newline. -/
def chainMatchAt : List Char → Bool
  | a :: b :: rest => a != '\n' && b != '\n' && leadsWith "From:".toList rest
  | _ => false

/-- Text before the first ..From: match, the first element of re.split on
that pattern; the whole text when there is no match. -/
def firstSeg : List Char → List Char
  | [] => []
  | c :: t => if chainMatchAt (c :: t) then [] else c :: firstSeg t

/-- Removal of every carriage return and line feed, the two replace calls of
fetch_first_email. -/
def stripCrLf (l : List Char) : List Char :=
  l.filter (fun c => c != '\r' && c != '\n')

/-- Model of EmailDecoder.fetch_first_email: decode the payload with
Decoder.call, split on the chained-email pattern, keep the first segment and
drop carriage returns and line feeds. -/
def fetchFirstEmail (C : PyCodecs) (msg charset tm : String) : Except PyErr String :=
  (decoderCall C msg charset tm).map (fun d => String.mk (stripCrLf (firstSeg d.toList)))

/-- Try the encoded-word charset alternative of the SubjectDecoder regex at
the head of the list: the literal utf-8 or the literal iso-2022-jp, both
lower case because the pattern is compiled without the ignore-case flag. -/
def chompCharset (l : List Char) : Option (String × List Char) :=
  if leadsWith "utf-8".toList l then some ("utf-8", l.drop 5)
  else if leadsWith "iso-2022-jp".toList l then some ("iso-2022-jp", l.drop 11)
  else none

/-- Try the whole SubjectDecoder regex at the head of the list: the literal
equals and question mark, a charset alternative, a question mark, one
character that is not a newline (the transfer selector, the second-to-last
character of the whole match), and a question mark. Returns the captured
charset, the selector character and the rest after the match. -/
def ewHere (l : List Char) : Option (String × Char × List Char) :=
  match l with
  | '=' :: '?' :: rest =>
    match chompCharset rest with
    | some (cs, r2) =>
      match r2 with
      | '?' :: sel :: '?' :: r3 => if sel ≠ '\n' then some (cs, sel, r3) else none
      | _ => none
    | none => none
  | _ => none

/-- Leftmost match of the SubjectDecoder regex (re.search). -/
def ewSearch : List Char → Option (String × Char × List Char)
  | [] => none
  | c :: t =>
    match ewHere (c :: t) with
    | some r => some r
    | none => ewSearch t

/-- Remainder after the final regex match, the last element of re.split on
the SubjectDecoder regex. Every iteration consumes a match of at least nine
characters, so fuel equal to the length never runs out. -/
def ewLastSegGo : Nat → List Char → List Char
  | 0, l => l
  | fuel + 1, l =>
    match ewSearch l with
    | none => l
    | some (_, _, rest) => ewLastSegGo fuel rest

/-- Last element of re.split on the SubjectDecoder regex. -/
def ewLastSeg (l : List Char) : List Char := ewLastSegGo l.length l

/-- Model of SubjectDecoder._identify_decode_method on one line: strip the
line, find the first marker (none models the AttributeError raised on the
None returned by search when the stripped line has no match), map the
selector to the transfer method (B to base64, anything else to
quoted-printable), and take the text after the last marker. Returns the
transfer method, the charset and the text. -/
def identifyDecodeMethod (line : List Char) : Option (String × String × String) :=
  let l := pyStripL line
  match ewSearch l with
  | none => none
  | some (cs, sel, _) =>
    let tm := if sel = 'B' then "base64" else "quoted-printable"
    some (tm, cs, String.mk (ewLastSeg l))

/-- Model of SubjectDecoder._decode_line: run Decoder.call on the identified
text, charset and transfer method; none models a raised exception. -/
def decodeLine (obj : String × String × String) : Option String :=
  match decoderCall stdCodecs obj.2.2 obj.2.1 obj.1 with
  | Except.ok t => some t
  | Except.error _ => none

/-- Model of the loop of SubjectDecoder._decode_subject: lines shorter than
ten characters are skipped, each remaining line is identified and decoded,
and the decoded pieces are collected in order; none models any exception
escaping a line. -/
def decodeSubjectLines : List (List Char) → Option (List String)
  | [] => some []
  | line :: ls =>
    if line.length < 10 then decodeSubjectLines ls
    else
      match identifyDecodeMethod line with
      | none => none
      | some obj =>
        match decodeLine obj with
        | none => none
        | some d => (decodeSubjectLines ls).map (fun r => d :: r)

/-- Model of SubjectDecoder._decode_subject: split on newlines, process each
line, join the decoded pieces with the empty separator. -/
def decodeSubject (s : String) : Option String :=
  (decodeSubjectLines (splitLines s.toList)).map String.join

/-- Model of SubjectDecoder.call: pass the subject through unchanged when
the regex finds no match anywhere in it, otherwise decode it. -/
def subjectDecoderCall (s : String) : Option String :=
  if (ewSearch s.toList).isSome then decodeSubject s else some s

mutual
/-- A mailbox message as GmailMboxMessage consumes it: the value of
get_content_type, the raw Content-Type header (None when absent), the raw
Content-Transfer-Encoding header (None when absent), and the payload.
is_multipart is true exactly when the payload is a list. -/
inductive PyMsg where
  | mk (ct : String) (ctHeader : Option String) (cte : Option String) (pl : PyPayload)
/-- A message payload: a bare string, or the list of sub-parts of a
multipart message. -/
inductive PyPayload where
  | str (s : String)
  | parts (items : PyItems)
/-- An element of a multipart payload: a message, or a nested list or tuple
of elements (the isinstance list-or-tuple branch of _get_email_messages). -/
inductive PyItem where
  | m (msg : PyMsg)
  | grp (items : PyItems)
/-- A list of payload elements. -/
inductive PyItems where
  | nil
  | cons (i : PyItem) (rest : PyItems)
end

/-- A value produced by the payload traversal: either the bare payload
string of a non-multipart top-level message, or a leaf message. -/
inductive Leaf where
  | str (s : String)
  | msg (m : PyMsg)

mutual
/-- One step of the _get_email_messages generator on a single element: a
nested list is flattened, a multipart message recurses into its payload, a
non-multipart message is yielded. -/
def getFromItem : PyItem → List Leaf
  | PyItem.grp its => getFromItems its
  | PyItem.m (PyMsg.mk ct cth cte (PyPayload.parts its)) => getFromItems its
  | PyItem.m (PyMsg.mk ct cth cte (PyPayload.str s)) =>
    [Leaf.msg (PyMsg.mk ct cth cte (PyPayload.str s))]
/-- Model of _get_email_messages over a payload list. -/
def getFromItems : PyItems → List Leaf
  | PyItems.nil => []
  | PyItems.cons i rest => getFromItem i ++ getFromItems rest
end

/-- Model of _fetch_content_type: NA for a bare string. -/
def fetchContentType : Leaf → String
  | Leaf.str _ => "NA"
  | Leaf.msg (PyMsg.mk ct _ _ _) => ct

/-- Model of _fetch_encoding_method: NA for a bare string or an absent
Content-Transfer-Encoding header. -/
def fetchEncodingMethod : Leaf → String
  | Leaf.str _ => "NA"
  | Leaf.msg (PyMsg.mk _ _ cte _) => cte.getD "NA"

/-- The normalisation chain of _fetch_charset: four successive
case-insensitive substring tests against the current value, each rewriting
the value to the canonical lower-case name on a hit. -/
def normalizeCharset (c : String) : String :=
  let c1 := if containsSub (lowerList c.toList) "utf-8".toList then "utf-8" else c
  let c2 := if containsSub (lowerList c1.toList) "iso-2022-jp".toList then "iso-2022-jp" else c1
  let c3 := if containsSub (lowerList c2.toList) "iso-8859-2".toList then "iso-8859-2" else c2
  if containsSub (lowerList c3.toList) "us-ascii".toList then "us-ascii" else c3

/-- Model of _fetch_charset: the raw Content-Type header (NA for a bare
string or an absent header), then the normalisation chain. -/
def fetchCharset : Leaf → String
  | Leaf.str _ => normalizeCharset "NA"
  | Leaf.msg (PyMsg.mk _ cth _ _) => normalizeCharset (cth.getD "NA")

/-- Model of _is_readable_text: text/plain must occur in the lowered content
type, the lowered transfer encoding must be base64 or quoted-printable, and
the (already normalised) charset must be one of the four supported names,
compared exactly. -/
def isReadableText (content_type encoded_way charset : String) : Bool :=
  containsSub (lowerList content_type.toList) "text/plain".toList
  && (lowerStr encoded_way == "base64" || lowerStr encoded_way == "quoted-printable")
  && (charset == "utf-8" || charset == "iso-2022-jp" || charset == "iso-8859-2"
      || charset == "us-ascii")

/-- The string get_payload returns on a leaf. A bare string is its own
payload; the parts branch is unreachable from the traversal, which only
yields non-multipart messages. -/
def leafPayloadStr : Leaf → String
  | Leaf.str s => s
  | Leaf.msg (PyMsg.mk _ _ _ (PyPayload.str s)) => s
  | Leaf.msg (PyMsg.mk _ _ _ (PyPayload.parts _)) => ""

/-- Model of _create_readable_text: an eligible leaf is handed to
EmailDecoder.fetch_first_email with its payload, charset and raw transfer
encoding (none models a raised exception); an ineligible leaf yields NA. -/
def createReadableText (leaf : Leaf) (content_type encoding charset : String) :
    Option String :=
  if isReadableText content_type encoding charset then
    match fetchFirstEmail stdCodecs (leafPayloadStr leaf) charset encoding with
    | Except.ok t => some t
    | Except.error _ => none
  else some "NA"

/-- Model of _read_email_text: the per-leaf tuple (content type, charset,
transfer encoding, text). -/
def readEmailText (leaf : Leaf) : String × String × String × Option String :=
  let content_type := fetchContentType leaf
  let encoding := fetchEncodingMethod leaf
  let charset := fetchCharset leaf
  (content_type, charset, encoding, createReadableText leaf content_type encoding charset)

/-- Model of _read_email_payload: a multipart message is flattened into its
leaves, a non-multipart message contributes its payload string as the only
element; each element is read into a tuple. -/
def readEmailPayload (m : PyMsg) : List (String × String × String × Option String) :=
  (match m with
   | PyMsg.mk _ _ _ (PyPayload.parts its) => getFromItems its
   | PyMsg.mk _ _ _ (PyPayload.str s) => [Leaf.str s]).map readEmailText

/-- The content part of parse_email: the first tuple of the payload list
(none models the IndexError on an empty list). -/
def parseEmailContent (m : PyMsg) : Option (String × String × String × Option String) :=
  (readEmailPayload m).head?

/-- Model of the loop of main: per-message outcomes of parse_email plus the
sheet write (ok carries the record, error models a raised exception). The
try block wraps the whole loop, so the first error ends the iteration.
Returns the records written and whether an exception was caught and logged. -/
def mainLoop {α : Type} : List (Except Unit α) → List α × Bool
  | [] => ([], false)
  | Except.ok r :: rest =>
    let p := mainLoop rest
    (r :: p.1, p.2)
  | Except.error _ :: _ => ([], true)

/-- Model of main: run the loop under the try block; the finally block
closes the workbook exactly once in every case. Returns the records, the
logged-failure flag and the close count. -/
def mainRun {α : Type} (msgs : List (Except Unit α)) : List α × Bool × Nat :=
  ((mainLoop msgs).1, (mainLoop msgs).2, 1)

/-- Positions list helper: all suffixes of a list, longest first. -/
def listTails : List Char → List (List Char)
  | [] => [[]]
  | c :: t => (c :: t) :: listTails t

/-- Index of the first element satisfying the test. -/
def firstHitIdx (p : List Char → Bool) : List (List Char) → Option Nat
  | [] => none
  | x :: xs => if p x then some 0 else (firstHitIdx p xs).map (fun n => n + 1)

/-- The first split segment as the specification words it: the prefix before
the earliest position at which the chained-email pattern matches, or the
whole text when no position matches. -/
def specFirstSeg (l : List Char) : List Char :=
  match firstHitIdx chainMatchAt (listTails l) with
  | none => l
  | some i => l.take i

/-- The eligibility condition as the claim words it: the content type
contains text/plain case-insensitively, the lowered transfer encoding is a
member of the closed transfer set, and the normalised charset is a member of
the closed charset set. -/
def claimEligible (content_type encoded_way charset : String) : Prop :=
  containsSub (lowerList content_type.toList) "text/plain".toList = true ∧
  lowerStr encoded_way ∈ (["base64", "quoted-printable"] : List String) ∧
  charset ∈ (["utf-8", "iso-2022-jp", "iso-8859-2", "us-ascii"] : List String)

/-- The recursive first-segment scan agrees with the index-based reading of
the specification text. -/
theorem firstSeg_eq_spec : ∀ l : List Char, firstSeg l = specFirstSeg l := by
  intro l
  induction l with
  | nil => rfl
  | cons c t ih =>
    cases hcm : chainMatchAt (c :: t) with
    | true => simp [firstSeg, specFirstSeg, firstHitIdx, listTails, hcm]
    | false =>
      cases hF : firstHitIdx chainMatchAt (listTails t) with
      | none =>
        have ht : specFirstSeg t = t := by unfold specFirstSeg; rw [hF]
        simp [firstSeg, specFirstSeg, firstHitIdx, listTails, hcm, hF, ih, ht]
      | some i =>
        have ht : specFirstSeg t = t.take i := by unfold specFirstSeg; rw [hF]
        simp [firstSeg, specFirstSeg, firstHitIdx, listTails, hcm, hF, ih, ht]

/-- A line of at least ten characters whose stripped form has no marker
makes the whole line loop fail. -/
theorem decodeSubjectLines_err : ∀ ls : List (List Char),
    (∃ l ∈ ls, 10 ≤ l.length ∧ ewSearch (pyStripL l) = none) →
    decodeSubjectLines ls = none := by
  intro ls
  induction ls with
  | nil =>
    intro h
    obtain ⟨l, hl, _⟩ := h
    exact absurd hl (List.not_mem_nil l)
  | cons a as ih =>
    intro h
    obtain ⟨l, hl, hlen, hsearch⟩ := h
    rcases List.mem_cons.mp hl with heq | hmem
    · subst heq
      have h10 : ¬ l.length < 10 := by omega
      have hid : identifyDecodeMethod l = none := by
        unfold identifyDecodeMethod
        simp [hsearch]
      simp [decodeSubjectLines, h10, hid]
    · by_cases h10 : a.length < 10
      · simpa [decodeSubjectLines, h10] using ih ⟨l, hmem, hlen, hsearch⟩
      · have hrec := ih ⟨l, hmem, hlen, hsearch⟩
        cases hid : identifyDecodeMethod a with
        | none => simp [decodeSubjectLines, h10, hid]
        | some obj =>
          cases hdl : decodeLine obj with
          | none => simp [decodeSubjectLines, h10, hid, hdl]
          | some d => simp [decodeSubjectLines, h10, hid, hdl, hrec]

/-- C1, code bug: on a mailbox of two messages where parsing the first one
raises, main emits zero records instead of continuing with the second
message, logs the one failure, and closes the workbook exactly once. The
claim (and the spec propagation policy) require the remaining message to be
processed, giving one record here; the single try block around the whole
loop aborts the batch instead. -/
theorem c1_main_batch_abort :
    mainRun [Except.error (), Except.ok "record2"] = (([] : List String), true, 1)
    ∧ ([] : List String).length ≠ [(Except.error () : Except Unit String), Except.ok "record2"].length - 1 :=
  ⟨rfl, by decide⟩

/-- C2, counterexample: on the quoted header value the program does not
return the decoded name, because the charset token is matched
case-sensitively against lower-case utf-8 and iso-2022-jp only, so the
upper-case UTF-8 marker is never recognised. -/
theorem c2_counterexample :
    subjectDecoderCall "=?UTF-8?Q?Marqu=C3=A9s_de_Vargas_=26_Baud?=" ≠
      some "Marqués de Vargas & Baud" := by decide

/-- C2, amended: HeaderWordDecoder applied to the header value with the
upper-case UTF-8 charset token returns the input unchanged, since the
compiled pattern has no ignore-case flag and therefore finds no marker. -/
theorem c2_upper_marker_passthrough :
    subjectDecoderCall "=?UTF-8?Q?Marqu=C3=A9s_de_Vargas_=26_Baud?=" =
      some "=?UTF-8?Q?Marqu=C3=A9s_de_Vargas_=26_Baud?=" := rfl

/-- C3, counterexample: when one of the two characters before the From:
token is a line feed the text is not split, because the dot of the Python
pattern does not match a newline; the claim text (any two characters) would
predict the segment A here, the program returns the whole cleaned text. -/
theorem c3_counterexample :
    fetchFirstEmail stdCodecs "A\nxFrom: tail" "utf-8" "quoted-printable" =
      Except.ok "AxFrom: tail" ∧ ("AxFrom: tail" : String) ≠ "A" :=
  ⟨rfl, by decide⟩

/-- C3, amended: for every successfully decoded body text,
fetch_first_email returns the prefix before the earliest occurrence of two
characters, neither of them a line feed, immediately followed by the
literal From: token, with all carriage returns and line feeds removed; with
no such occurrence the whole decoded text is cleaned the same way. The
quoted example body yields exactly Hi there. -/
theorem c3_chain_split :
    (∀ (C : PyCodecs) (msg cs tm d : String),
        decoderCall C msg cs tm = Except.ok d →
        fetchFirstEmail C msg cs tm =
          Except.ok (String.mk (stripCrLf (specFirstSeg d.toList))))
    ∧ fetchFirstEmail stdCodecs "Hi there\r\n..From: someone@example.com\r\nOld reply"
        "utf-8" "quoted-printable" = Except.ok "Hi there" := by
  constructor
  · intro C msg cs tm d h
    unfold fetchFirstEmail
    rw [h, ← firstSeg_eq_spec]
    rfl
  · rfl

/-- C3, witness: the amended theorem applied to a concrete body whose
decode is the identity. -/
theorem c3_witness :
    fetchFirstEmail stdCodecs "abcFrom: x" "utf-8" "quoted-printable" =
      Except.ok (String.mk (stripCrLf (specFirstSeg ("abcFrom: x").toList))) :=
  c3_chain_split.1 stdCodecs "abcFrom: x" "utf-8" "quoted-printable" "abcFrom: x" rfl

/-- C4: a leaf is handed to body text extraction exactly under the three
conditions of the claim, every ineligible combination yields NA and no
error, and a text/html content type is ineligible whatever the charset and
transfer encoding. -/
theorem c4_eligibility_gate :
    (∀ ct enc cs : String, isReadableText ct enc cs = true ↔ claimEligible ct enc cs)
    ∧ (∀ (leaf : Leaf) (ct enc cs : String), isReadableText ct enc cs = false →
        createReadableText leaf ct enc cs = some "NA")
    ∧ (∀ (leaf : Leaf) (enc cs : String),
        createReadableText leaf "text/html" enc cs = some "NA") := by
  refine ⟨fun ct enc cs => ?_, fun leaf ct enc cs h => ?_, fun leaf enc cs => ?_⟩
  · simp only [isReadableText, claimEligible, List.mem_cons, List.mem_singleton,
      Bool.and_eq_true, Bool.or_eq_true, beq_iff_eq]
    tauto
  · simp [createReadableText, h]
  · have hfalse : isReadableText "text/html" enc cs = false := rfl
    simp [createReadableText, hfalse]

/-- C4, witness: an ineligible transfer encoding yields NA. -/
theorem c4_witness :
    createReadableText (Leaf.str "x") "text/plain" "7bit" "utf-8" = some "NA" :=
  c4_eligibility_gate.2.1 (Leaf.str "x") "text/plain" "7bit" "utf-8" (by decide)

/-- C5, counterexample: a subject with a valid first marker line and a
second plain line of at least ten characters makes the whole decode fail
(AttributeError on the None returned by search), instead of dropping the
plain line silently and returning the decoded first line. -/
theorem c5_counterexample :
    subjectDecoderCall "=?utf-8?Q?hello12345?=\nplain continuation!" = none ∧
    (some "hello12345?" : Option String) ≠ none :=
  ⟨rfl, by decide⟩

/-- C5, amended: only physical lines shorter than ten characters are
silently dropped; a physical line of at least ten characters whose stripped
form contains no marker makes the whole subject decode raise an error
(whenever the subject as a whole does contain a marker, so that the line
loop runs at all). -/
theorem c5_markerless_line_error :
    (∀ (l : List Char) (ls : List (List Char)), l.length < 10 →
        decodeSubjectLines (l :: ls) = decodeSubjectLines ls)
    ∧ (∀ s : String, (ewSearch s.toList).isSome = true →
        (∃ l ∈ splitLines s.toList, 10 ≤ l.length ∧ ewSearch (pyStripL l) = none) →
        subjectDecoderCall s = none) := by
  constructor
  · intro l ls h
    simp [decodeSubjectLines, h]
  · intro s hreq hbad
    have h1 : decodeSubjectLines (splitLines s.toList) = none :=
      decodeSubjectLines_err _ hbad
    unfold subjectDecoderCall decodeSubject
    rw [h1, if_pos hreq]
    rfl

/-- C5, witness: the amended theorem applied to a concrete two-line
subject. -/
theorem c5_witness :
    subjectDecoderCall "=?utf-8?Q?hi12345678?=\nplain follow-up line" = none :=
  c5_markerless_line_error.2 _ (by decide)
    ⟨("plain follow-up line").toList, by decide, by decide, by decide⟩

/-- C6: the three decode stages of Decoder.call reverse the encoding chain.
The charset and transfer codecs are standard-library collaborators, so they
enter as pointwise hypotheses at the text under consideration: the charset
codec round-trips the text T through the byte form B, the transfer decode
recovers B from the transfer bytes E, and re-encoding the ASCII transfer
text S under the same charset yields E again (the ASCII transparency of the
four supported charsets, without which the first stage would corrupt the
transfer text). Under these, Decoder.call on the transfer text reproduces T
exactly, for every charset and transfer pair of the closed sets. -/
theorem c6_roundtrip (C : PyCodecs) (cs tm T S : String) (B E : Bytes)
    (hcs : cs = "utf-8" ∨ cs = "iso-2022-jp" ∨ cs = "iso-8859-2" ∨ cs = "us-ascii")
    (htm : tm = "base64" ∨ tm = "quoted-printable")
    (hencT : C.encode cs T = some B)
    (hcd : C.decode cs B = some T)
    (hSenc : C.encode cs S = some E)
    (htd : decodeWithTransfer C tm E = Except.ok (some B)) :
    decoderCall C S cs tm = Except.ok T := by
  simp [decoderCall, hSenc, htd, hcd]

/-- C6, witness: the concrete standard codecs, us-ascii with base64, and a
text whose base64 form is SGkh. -/
theorem c6_witness : decoderCall stdCodecs "SGkh" "us-ascii" "base64" = Except.ok "Hi!" :=
  c6_roundtrip stdCodecs "us-ascii" "base64" "Hi!" "SGkh" [72, 105, 33] [83, 71, 107, 104]
    (Or.inr (Or.inr (Or.inr rfl))) (Or.inl rfl) rfl rfl rfl rfl

/-- C7: a header value in which the regex finds no encoded-word marker is
returned unchanged. -/
theorem c7_no_marker_passthrough (s : String) (h : ewSearch s.toList = none) :
    subjectDecoderCall s = some s := by
  unfold subjectDecoderCall
  rw [h]
  rfl

/-- C7, witness: a plain header value passes through unchanged. -/
theorem c7_witness : subjectDecoderCall "Hello World" = some "Hello World" :=
  c7_no_marker_passthrough "Hello World" (by decide)

/-- C8: Decoder.call returns text exactly when the charset encode, the
transfer reversal and the charset decode all succeed, so any stage failure
yields an error and never a silent empty or partial result; concretely, a
base64 payload with invalid padding produces the transfer-stage error. -/
theorem c8_stage_failure :
    (∀ (C : PyCodecs) (msg cs tm s : String),
        decoderCall C msg cs tm = Except.ok s ↔
          ∃ bin b2, C.encode cs msg = some bin ∧
            decodeWithTransfer C tm bin = Except.ok (some b2) ∧
            C.decode cs b2 = some s)
    ∧ decoderCall stdCodecs "abc" "utf-8" "base64" = Except.error PyErr.transferErr := by
  constructor
  · intro C msg cs tm s
    unfold decoderCall
    cases hE : C.encode cs msg with
    | none => simp
    | some bin =>
      cases hT : decodeWithTransfer C tm bin with
      | error e => simp [hT]
      | ok ob =>
        cases ob with
        | none => simp [hT]
        | some b2 =>
          cases hD : C.decode cs b2 with
          | none => simp [hT, hD]
          | some t => simp [hT, hD, eq_comm]
  · rfl

/-- C8, witness: a successful decode exhibits the three succeeding stages. -/
theorem c8_witness :
    ∃ bin b2, stdCodecs.encode "utf-8" "aGk=" = some bin ∧
      decodeWithTransfer stdCodecs "base64" bin = Except.ok (some b2) ∧
      stdCodecs.decode "utf-8" b2 = some "hi" :=
  (c8_stage_failure.1 stdCodecs "aGk=" "utf-8" "base64" "hi").mp rfl

/-- C9: the eligibility gate lowers the transfer encoding while the
Decoder dispatch compares it exactly, so a leaf declaring BASE64 passes the
gate, the transfer stage yields None, and the charset-decode stage raises
(the AttributeError on None), so the created text is an error and never a
string. -/
theorem c9_case_mismatch :
    (∀ b : Bytes, decodeWithTransfer stdCodecs "BASE64" b = Except.ok none)
    ∧ isReadableText "text/plain" "BASE64" "utf-8" = true
    ∧ (∀ pl : String, decoderCall stdCodecs pl "utf-8" "BASE64" = Except.error PyErr.attrErr)
    ∧ (∀ pl : String,
        createReadableText (Leaf.str pl) "text/plain" "BASE64" "utf-8" = none) :=
  ⟨fun b => rfl, rfl, fun pl => rfl, fun pl => rfl⟩

/-- C10: a non-multipart message is read as one bare string element, so all
four content fields of the record are NA whatever the message headers say;
and in general the record content is exactly the first tuple the payload
walk produces. -/
theorem c10_single_part_na :
    (∀ (ct : String) (cth cte : Option String) (s : String),
        parseEmailContent (PyMsg.mk ct cth cte (PyPayload.str s)) =
          some ("NA", "NA", "NA", some "NA"))
    ∧ (∀ (m : PyMsg) (t : String × String × String × Option String)
        (rest : List (String × String × String × Option String)),
        readEmailPayload m = t :: rest → parseEmailContent m = some t) := by
  constructor
  · intro ct cth cte s
    rfl
  · intro m t rest h
    unfold parseEmailContent
    rw [h]
    rfl

/-- C10, witness: a concrete single-part message populates the record from
its first (and only) tuple. -/
theorem c10_witness :
    parseEmailContent (PyMsg.mk "text/plain" none none (PyPayload.str "hello")) =
      some ("NA", "NA", "NA", some "NA") :=
  c10_single_part_na.2 (PyMsg.mk "text/plain" none none (PyPayload.str "hello"))
    ("NA", "NA", "NA", some "NA") [] rfl

end ParseMbox


